import Mathlib

/-!
Verification of the EFR32MG26 hardened secure-boot engine: a shallow
embedding of the boot-token verifier, anti-rollback ledger, PUF key
fabric, tamper response, and attestation recorder, with theorems about
the properties the design documents state.
-/

namespace SecureBoot

/-! ### Token constants (include/anti_rollback.h, SECURE_BOOT_H section) -/

def TOKEN_LAYER_1 : Nat := 0x5A3C96E1
def TOKEN_LAYER_2 : Nat := 0xA5C3691E
def TOKEN_LAYER_3 : Nat := 0x3C5A1E96
def TOKEN_LAYER_4 : Nat := 0xC35A961E

def TOKEN_STATE_INVALID : Nat := 0x00000000
def TOKEN_STATE_LAYER1_OK : Nat := 0x33CC33CC
def TOKEN_STATE_LAYER2_OK : Nat := 0x55AA55AA
def TOKEN_STATE_LAYER3_OK : Nat := 0x0F0FF0F0
def TOKEN_STATE_LAYER4_OK : Nat := 0xA5A55A5A
def TOKEN_STATE_ALL_VALID : Nat := 0xDEADBEEF

/-- The expected token for each of the four layers
    (`secure_boot_init` writes exactly these into the context). -/
def expected_token : Fin 4 → Nat
  | 0 => TOKEN_LAYER_1
  | 1 => TOKEN_LAYER_2
  | 2 => TOKEN_LAYER_3
  | 3 => TOKEN_LAYER_4

/-- `verify_layered_tokens` from src/src/bootloader/secure_boot.c, lines 58-126.
    The boot context's `verification_tokens[4]` array is the only input the
    function reads; the jitter calls have no effect on the computed result and
    are omitted.  `state` and `verification_result` are threaded exactly as in
    the C source, including the redundant re-checks of the just-written
    sentinel. -/
def verify_layered_tokens (tokens : Fin 4 → Nat) : Nat :=
  -- Layer 1
  if tokens 0 = TOKEN_LAYER_1 then
    let state := TOKEN_STATE_LAYER1_OK
    let verification_result := 0 ||| 0x1
    -- Redundant check to defeat single glitch
    if state ≠ TOKEN_STATE_LAYER1_OK then TOKEN_STATE_INVALID
    else
      -- Layer 2
      if tokens 1 = TOKEN_LAYER_2 then
        let state := TOKEN_STATE_LAYER2_OK
        let verification_result := verification_result ||| 0x2
        -- Redundant check with different comparison
        if (state ^^^ TOKEN_STATE_LAYER2_OK) ≠ 0 ∧ state ≠ TOKEN_STATE_LAYER2_OK then
          TOKEN_STATE_INVALID
        else
          -- Layer 3
          if tokens 2 = TOKEN_LAYER_3 then
            let state := TOKEN_STATE_LAYER3_OK
            let verification_result := verification_result ||| 0x4
            -- Layer 4
            if tokens 3 = TOKEN_LAYER_4 then
              let state := TOKEN_STATE_LAYER4_OK
              let verification_result := verification_result ||| 0x8
              -- Final comprehensive check with multiple conditions
              if verification_result = 0xF ∧ state = TOKEN_STATE_LAYER4_OK then
                -- Double verification to prevent single glitch bypass
                if tokens 0 = TOKEN_LAYER_1 ∧ tokens 1 = TOKEN_LAYER_2 ∧
                    tokens 2 = TOKEN_LAYER_3 ∧ tokens 3 = TOKEN_LAYER_4 then
                  TOKEN_STATE_ALL_VALID
                else TOKEN_STATE_INVALID
              else TOKEN_STATE_INVALID
            else TOKEN_STATE_INVALID
          else TOKEN_STATE_INVALID
      else TOKEN_STATE_INVALID
  else TOKEN_STATE_INVALID

/-- Characterization: the verifier accepts exactly the contexts whose four
    tokens equal the expected layer constants. -/
theorem verify_layered_tokens_eq (tokens : Fin 4 → Nat) :
    verify_layered_tokens tokens =
      if tokens 0 = TOKEN_LAYER_1 ∧ tokens 1 = TOKEN_LAYER_2 ∧
          tokens 2 = TOKEN_LAYER_3 ∧ tokens 3 = TOKEN_LAYER_4 then
        TOKEN_STATE_ALL_VALID
      else TOKEN_STATE_INVALID := by
  unfold verify_layered_tokens
  by_cases h0 : tokens 0 = TOKEN_LAYER_1 <;>
    by_cases h1 : tokens 1 = TOKEN_LAYER_2 <;>
      by_cases h2 : tokens 2 = TOKEN_LAYER_3 <;>
        by_cases h3 : tokens 3 = TOKEN_LAYER_4 <;>
          simp [h0, h1, h2, h3]

/-- C1: for every boot context whose four verification tokens equal the
    expected constants `TOKEN_LAYER_1..TOKEN_LAYER_4`, `verify_layered_tokens`
    returns `TOKEN_STATE_ALL_VALID`; and for every context in which exactly one
    of the four tokens differs from its expected constant, it returns
    `TOKEN_STATE_INVALID`. -/
theorem claim_C1_verify_layered_tokens (tokens : Fin 4 → Nat) :
    ((∀ i, tokens i = expected_token i) →
      verify_layered_tokens tokens = TOKEN_STATE_ALL_VALID) ∧
    (∀ i, tokens i ≠ expected_token i → (∀ j, j ≠ i → tokens j = expected_token j) →
      verify_layered_tokens tokens = TOKEN_STATE_INVALID) := by
  rw [verify_layered_tokens_eq]
  constructor
  · intro h
    have h0 := h 0; have h1 := h 1; have h2 := h 2; have h3 := h 3
    simp [expected_token] at h0 h1 h2 h3
    simp [h0, h1, h2, h3]
  · intro i hi hrest
    have : ¬ (tokens 0 = TOKEN_LAYER_1 ∧ tokens 1 = TOKEN_LAYER_2 ∧
        tokens 2 = TOKEN_LAYER_3 ∧ tokens 3 = TOKEN_LAYER_4) := by
      fin_cases i <;> simp [expected_token] at hi <;> tauto
    simp [this]

/-- Concrete instantiation of C1: the all-correct token set is accepted and the
    token set whose first entry is corrupted to zero is rejected. -/
theorem claim_C1_verify_layered_tokens_witness :
    verify_layered_tokens expected_token = TOKEN_STATE_ALL_VALID ∧
    verify_layered_tokens (fun i => if i = 0 then 0 else expected_token i) =
      TOKEN_STATE_INVALID := by
  refine ⟨(claim_C1_verify_layered_tokens expected_token).1 (fun _ => rfl), ?_⟩
  exact (claim_C1_verify_layered_tokens _).2 0 (by decide)
    (by intro j hj; fin_cases j <;> simp_all)

/-! ### Anti-rollback ledger (src/src/bootloader/secure_boot.c, anti_rollback section) -/

/-- `version_t` from include/anti_rollback.h: `major`/`minor` are `uint8_t`,
    `patch` is `uint16_t`; the comparison logic is pure, so the fields are
    modelled as `Nat`. -/
structure version_t where
  major : Nat
  minor : Nat
  patch : Nat
deriving DecidableEq, Repr

/-- `rollback_status_t` from include/anti_rollback.h. -/
inductive rollback_status_t where
  | ROLLBACK_CHECK_PASS
  | ROLLBACK_CHECK_FAIL
  | ROLLBACK_VERSION_EQUAL
  | ROLLBACK_VERSION_HIGHER
deriving DecidableEq, Repr

export rollback_status_t (ROLLBACK_CHECK_PASS ROLLBACK_CHECK_FAIL
  ROLLBACK_VERSION_EQUAL ROLLBACK_VERSION_HIGHER)

/-- The module-level state of the anti-rollback unit: the simulated OTP
    version ledger plus the `g_anti_rollback_initialized` flag.  The eight
    `g_otp_counters` slots are carried for completeness. -/
structure AntiRollbackState where
  initialized : Bool
  otp_version : version_t
  otp_counters : Fin 8 → Nat

/-- `read_otp_version`: succeeds only when the unit is initialized (the
    NULL-pointer case is modelled by the `none` result of the caller passing
    no version). -/
def read_otp_version (s : AntiRollbackState) : Option version_t :=
  if s.initialized then some s.otp_version else none

/-- `check_version_rollback` from src/src/bootloader/secure_boot.c lines
    421-460: lexicographic comparison of the candidate against the stored OTP
    version.  A `none` argument models the C `NULL` pointer. -/
def check_version_rollback (new_version : Option version_t) (s : AntiRollbackState) :
    rollback_status_t :=
  match new_version with
  | none => ROLLBACK_CHECK_FAIL
  | some v =>
    if ¬ s.initialized then ROLLBACK_CHECK_FAIL
    else
      match read_otp_version s with
      | none => ROLLBACK_CHECK_FAIL
      | some current_version =>
        if v.major > current_version.major then ROLLBACK_VERSION_HIGHER
        else if v.major < current_version.major then ROLLBACK_CHECK_FAIL
        else if v.minor > current_version.minor then ROLLBACK_VERSION_HIGHER
        else if v.minor < current_version.minor then ROLLBACK_CHECK_FAIL
        else if v.patch > current_version.patch then ROLLBACK_VERSION_HIGHER
        else if v.patch < current_version.patch then ROLLBACK_CHECK_FAIL
        else ROLLBACK_VERSION_EQUAL

/-- Strict lexicographic order on version 3-tuples. -/
def version_lt (a b : version_t) : Prop :=
  a.major < b.major ∨ (a.major = b.major ∧
    (a.minor < b.minor ∨ (a.minor = b.minor ∧ a.patch < b.patch)))

instance (a b : version_t) : Decidable (version_lt a b) := by
  unfold version_lt; infer_instance

/-- C2: with the store initialized and a non-null candidate `v`,
    `check_version_rollback` returns `ROLLBACK_CHECK_FAIL` iff `v` is strictly
    below the stored version lexicographically, `ROLLBACK_VERSION_HIGHER` when
    `v` is strictly above it, and `ROLLBACK_VERSION_EQUAL` when they are
    equal. -/
theorem claim_C2_check_version_rollback (v stored : version_t) (ctr : Fin 8 → Nat) :
    (check_version_rollback (some v) ⟨true, stored, ctr⟩ = ROLLBACK_CHECK_FAIL ↔
      version_lt v stored) ∧
    (version_lt stored v →
      check_version_rollback (some v) ⟨true, stored, ctr⟩ = ROLLBACK_VERSION_HIGHER) ∧
    (v = stored →
      check_version_rollback (some v) ⟨true, stored, ctr⟩ = ROLLBACK_VERSION_EQUAL) := by
  obtain ⟨a, b, c⟩ := v
  obtain ⟨x, y, z⟩ := stored
  refine ⟨?_, ?_, ?_⟩ <;>
    · simp only [check_version_rollback, read_otp_version, version_lt,
        version_t.mk.injEq, if_true, Bool.not_true, reduceIte]
      split_ifs <;> simp_all <;> omega

/-- Concrete instantiation of C2 at stored version 1.0.0 and candidate
    0.9.5 (a strict downgrade, rejected). -/
theorem claim_C2_check_version_rollback_witness :
    (check_version_rollback (some ⟨0, 9, 5⟩)
        ⟨true, ⟨1, 0, 0⟩, fun _ => 0⟩ = ROLLBACK_CHECK_FAIL) ∧
    version_lt ⟨0, 9, 5⟩ ⟨1, 0, 0⟩ := by
  have h := claim_C2_check_version_rollback ⟨0, 9, 5⟩ ⟨1, 0, 0⟩ (fun _ => 0)
  exact ⟨h.1.mpr (by decide), by decide⟩

/-- `write_otp_version` from src/src/bootloader/secure_boot.c lines 376-416:
    commit of a candidate version to the (simulated) OTP ledger.  Returns the
    C `bool` result together with the post-state. -/
def write_otp_version (version : Option version_t) (s : AntiRollbackState) :
    Bool × AntiRollbackState :=
  match version with
  | none => (false, s)
  | some v =>
    if ¬ s.initialized then (false, s)
    else
      match read_otp_version s with
      | none => (false, s)
      | some current_version =>
        if v.major < current_version.major then (false, s)  -- Downgrade not allowed
        else if v.major = current_version.major ∧
            v.minor < current_version.minor then (false, s)  -- Downgrade not allowed
        else if v.major = current_version.major ∧
            v.minor = current_version.minor ∧
            v.patch ≤ current_version.patch then (false, s)  -- Downgrade or same version not allowed
        else (true, { s with otp_version := v })

/-- Counterexample to C3: committing a candidate equal to the stored version
    is rejected by `write_otp_version` (it returns `false`), not accepted
    idempotently as the claim states.  Stored version 1.0.0, candidate
    1.0.0. -/
theorem claim_C3_counterexample :
    write_otp_version (some ⟨1, 0, 0⟩) ⟨true, ⟨1, 0, 0⟩, fun _ => 0⟩ =
      (false, ⟨true, ⟨1, 0, 0⟩, fun _ => 0⟩) := by
  rfl

/-- C3 (amended): committing a candidate equal to the stored version fails
    (returns `false`) and leaves the stored version unchanged, and committing
    a strictly greater candidate succeeds and afterwards the stored version
    equals the candidate. -/
theorem claim_C3_write_otp_version (v stored : version_t) (ctr : Fin 8 → Nat) :
    (v = stored →
      write_otp_version (some v) ⟨true, stored, ctr⟩ = (false, ⟨true, stored, ctr⟩)) ∧
    (version_lt stored v →
      write_otp_version (some v) ⟨true, stored, ctr⟩ = (true, ⟨true, v, ctr⟩)) := by
  obtain ⟨a, b, c⟩ := v
  obtain ⟨x, y, z⟩ := stored
  refine ⟨?_, ?_⟩ <;>
    · simp only [write_otp_version, read_otp_version, version_lt,
        version_t.mk.injEq, if_true, Bool.not_true, reduceIte]
      split_ifs <;> simp_all <;> omega

/-- Concrete instantiation of the amended C3: from stored version 1.0.0,
    committing 1.0.0 fails and changes nothing, and committing 1.0.1 succeeds
    and moves the ledger to 1.0.1. -/
theorem claim_C3_write_otp_version_witness :
    (write_otp_version (some ⟨1, 0, 0⟩) ⟨true, ⟨1, 0, 0⟩, fun _ => 0⟩ =
      (false, ⟨true, ⟨1, 0, 0⟩, fun _ => 0⟩)) ∧
    (write_otp_version (some ⟨1, 0, 1⟩) ⟨true, ⟨1, 0, 0⟩, fun _ => 0⟩ =
      (true, ⟨true, ⟨1, 0, 1⟩, fun _ => 0⟩)) := by
  have h := claim_C3_write_otp_version ⟨1, 0, 0⟩ ⟨1, 0, 0⟩ (fun _ => 0)
  have h2 := claim_C3_write_otp_version ⟨1, 0, 1⟩ ⟨1, 0, 0⟩ (fun _ => 0)
  exact ⟨h.1 rfl, h2.2 (by decide)⟩

/-! ### Firmware signature verification (src/src/bootloader/secure_boot.c) -/

/-- `firmware_header_t` from the SECURE_BOOT_H section of
    include/anti_rollback.h: the packed firmware image header.  Byte arrays
    are modelled as functions from the index. -/
structure firmware_header_t where
  magic : Nat
  version : Nat
  image_size : Nat
  load_address : Nat
  entry_point : Nat
  signature : Fin 64 → Nat
  hash : Fin 32 → Nat
  timestamp : Nat
  flags : Nat

/-- `verify_firmware_signature` from src/src/bootloader/secure_boot.c lines
    134-179.  The C function takes the header and the image pointer; after
    the magic and size checks it sets `verification_state` through the fixed
    sentinel chain LAYER1 → LAYER2 → ALL_VALID without ever reading the
    signature, hash or image bytes. -/
def verify_firmware_signature (header : firmware_header_t) (image : List Nat) : Nat :=
  if header.magic ≠ 0x464D5750 then TOKEN_STATE_INVALID  -- "FWPG" magic
  else if header.image_size = 0 ∨ header.image_size > 0x100000 then TOKEN_STATE_INVALID
  else
    -- Simulate signature verification
    let verification_state := TOKEN_STATE_LAYER1_OK
    -- Multi-stage verification to resist glitches
    if verification_state = TOKEN_STATE_LAYER1_OK then
      let verification_state := TOKEN_STATE_LAYER2_OK
      if verification_state = TOKEN_STATE_LAYER2_OK then TOKEN_STATE_ALL_VALID
      else TOKEN_STATE_INVALID
    else TOKEN_STATE_INVALID

/-- C10: the verdict of `verify_firmware_signature` depends only on the
    header's `magic` and `image_size` fields — two headers agreeing on those
    two fields (with arbitrary signature, hash, image data, and remaining
    fields) get the same verdict — and any header with the correct magic and
    `image_size` in (0, 0x100000] is accepted as `TOKEN_STATE_ALL_VALID`. -/
theorem claim_C10_verify_firmware_signature
    (h1 h2 : firmware_header_t) (img1 img2 : List Nat)
    (hmagic : h1.magic = h2.magic) (hsize : h1.image_size = h2.image_size) :
    verify_firmware_signature h1 img1 = verify_firmware_signature h2 img2 ∧
    (h1.magic = 0x464D5750 → 0 < h1.image_size → h1.image_size ≤ 0x100000 →
      verify_firmware_signature h1 img1 = TOKEN_STATE_ALL_VALID) := by
  unfold verify_firmware_signature
  rw [hmagic, hsize]
  refine ⟨rfl, ?_⟩
  intro hm hs1 hs2
  split_ifs <;> simp_all <;> omega

/-- Concrete instantiation of C10: a header with valid magic and size 0x10000
    is accepted no matter what signature bytes it carries; flipping every
    signature, hash and image byte leaves the verdict unchanged. -/
theorem claim_C10_verify_firmware_signature_witness :
    verify_firmware_signature
        ⟨0x464D5750, 0x01000000, 0x10000, 0x08000000, 0x08000400,
          fun _ => 0x00, fun _ => 0x00, 0, 0⟩ [] =
      verify_firmware_signature
        ⟨0x464D5750, 0x01000000, 0x10000, 0x08000000, 0x08000400,
          fun _ => 0xFF, fun _ => 0xFF, 0, 0⟩ [0xFF] ∧
    verify_firmware_signature
        ⟨0x464D5750, 0x01000000, 0x10000, 0x08000000, 0x08000400,
          fun _ => 0x00, fun _ => 0x00, 0, 0⟩ [] = TOKEN_STATE_ALL_VALID := by
  have h := claim_C10_verify_firmware_signature
    ⟨0x464D5750, 0x01000000, 0x10000, 0x08000000, 0x08000400,
      fun _ => 0x00, fun _ => 0x00, 0, 0⟩
    ⟨0x464D5750, 0x01000000, 0x10000, 0x08000000, 0x08000400,
      fun _ => 0xFF, fun _ => 0xFF, 0, 0⟩ [] [0xFF] rfl rfl
  exact ⟨h.1, h.2 rfl (by decide) (by decide)⟩

/-! ### PUF key fabric (src/src/puf/puf.c) -/

def PUF_KEY_SIZE : Nat := 32
def WRAPPED_KEY_SIZE : Nat := 48

/-- The module-level PUF state: `g_puf_initialized` and
    `g_puf_config.enrollment_done`. -/
structure PufState where
  initialized : Bool
  enrollment_done : Bool

/-- The simulated helper data written by `puf_enroll`:
    `g_puf_helper_data[i] = i ^ 0xA5` for `i < 64`. -/
def g_puf_helper_data (i : Nat) : Nat := i ^^^ 0xA5

/-- `puf_reconstruct_key` (src/src/puf/puf.c lines 105-136): succeeds only for
    the exact key size when initialized and enrolled, reconstructing
    `g_puf_key[i] = g_puf_helper_data[i % 64] ^ 0x5A`. -/
def puf_reconstruct_key (s : PufState) (key_size : Nat) : Option (Nat → Nat) :=
  if ¬ s.initialized then none
  else if key_size ≠ PUF_KEY_SIZE then none
  else if ¬ s.enrollment_done then none
  else some (fun i => g_puf_helper_data (i % 64) ^^^ 0x5A)

/-- `puf_derive_key` (src/src/puf/puf.c lines 141-172): reconstructs the base
    key and XOR-mixes the context into it.  The local `base_key` buffer is
    zeroized before the successful return, which has no observable effect
    here. -/
def puf_derive_key (s : PufState) (context : List Nat) : Option (Nat → Nat) :=
  match puf_reconstruct_key s PUF_KEY_SIZE with
  | none => none
  | some base_key =>
    some (fun i =>
      if 0 < context.length then
        base_key (i % PUF_KEY_SIZE) ^^^ context.getD (i % context.length) 0
      else base_key (i % PUF_KEY_SIZE))

/-- The `"KEY_WRAPPING_v1"` context label (15 bytes, the terminating NUL is
    excluded by `sizeof(kek_context) - 1`). -/
def kek_context : List Nat :=
  [0x4B, 0x45, 0x59, 0x5F, 0x57, 0x52, 0x41, 0x50, 0x50, 0x49, 0x4E, 0x47, 0x5F, 0x76, 0x31]

/-- `wrapped_key_t`: ciphertext buffer, 16-byte authentication tag, key type
    tag and version. -/
structure wrapped_key_t where
  wrapped_key : Nat → Nat
  tag : Nat → Nat
  key_type : Nat
  version : Nat
deriving Inhabited

/-- `puf_wrap_key` (src/src/puf/puf.c lines 177-222): XOR-encrypts the
    plaintext under the PUF-derived wrapping key and writes the 16-byte tag
    `tag[i] = wrapping_key[i] ^ plaintext[i % key_size]`; the struct is
    `memset` to zero first, so ciphertext bytes past `key_size` are zero. -/
def puf_wrap_key (s : PufState) (plaintext_key : Nat → Nat) (key_size : Nat)
    (key_type : Nat) : Option wrapped_key_t :=
  if ¬ s.initialized then none
  else if key_size > WRAPPED_KEY_SIZE - 16 then none  -- Key too large
  else
    match puf_derive_key s kek_context with
    | none => none
    | some wrapping_key =>
      some { wrapped_key := fun i =>
               if i < key_size then plaintext_key i ^^^ wrapping_key (i % PUF_KEY_SIZE)
               else 0,
             tag := fun i =>
               if i < 16 then wrapping_key i ^^^ plaintext_key (i % key_size)
               else 0,
             key_type := key_type,
             version := 1 }

/-- `puf_unwrap_key` (src/src/puf/puf.c lines 227-273): XOR-decrypts into the
    caller's output buffer, recomputes the expected tag from the decrypted
    bytes, accumulates the byte-wise differences with `diff |= ...`, and on a
    nonzero `diff` zeroizes the first `key_size` output bytes and fails.
    `buf0` is the output buffer's contents before the call; the second
    component of the result is its contents after the call. -/
def puf_unwrap_key (s : PufState) (wrapped : wrapped_key_t) (key_size : Nat)
    (buf0 : Nat → Nat) : Bool × (Nat → Nat) :=
  if ¬ s.initialized then (false, buf0)
  else
    match puf_derive_key s kek_context with
    | none => (false, buf0)
    | some wrapping_key =>
      let plaintext_key : Nat → Nat := fun i =>
        if i < key_size then wrapped.wrapped_key i ^^^ wrapping_key (i % PUF_KEY_SIZE)
        else buf0 i
      let diff := (List.range 16).foldl
        (fun acc i => acc |||
          ((wrapping_key i ^^^ plaintext_key (i % key_size)) ^^^ wrapped.tag i))
        0
      if diff ≠ 0 then (false, fun i => if i < key_size then 0 else buf0 i)  -- Tag verification failed - zeroize output
      else (true, plaintext_key)

/-- The concrete PUF-derived wrapping key obtained from the enrolled helper
    data under the `"KEY_WRAPPING_v1"` context. -/
def puf_wk : Nat → Nat := fun i =>
  if 0 < kek_context.length then
    (g_puf_helper_data ((i % PUF_KEY_SIZE) % 64) ^^^ 0x5A) ^^^
      kek_context.getD (i % kek_context.length) 0
  else g_puf_helper_data ((i % PUF_KEY_SIZE) % 64) ^^^ 0x5A

theorem puf_derive_kek :
    puf_derive_key ⟨true, true⟩ kek_context = some puf_wk := rfl

/-- Helper: a fold of `lor` over terms that are all zero stays at the
    accumulator. -/
theorem foldl_lor_zero (f : Nat → Nat) (l : List Nat) (acc : Nat)
    (h : ∀ x ∈ l, f x = 0) :
    l.foldl (fun a x => a ||| f x) acc = acc := by
  induction l generalizing acc with
  | nil => rfl
  | cons hd tl ih =>
    simp only [List.foldl_cons]
    rw [h hd (List.mem_cons_self hd tl), Nat.or_zero]
    exact ih acc (fun x hx => h x (List.mem_cons_of_mem hd hx))

/-- Helper: a fold of `lor` over terms that are each `0` or `v`, starting from
    `0` or `v`, yields `v` as soon as one term (or the accumulator) is `v`. -/
theorem foldl_lor_of_mem (f : Nat → Nat) (l : List Nat) (v acc : Nat)
    (hall : ∀ x ∈ l, f x = 0 ∨ f x = v) (hacc : acc = 0 ∨ acc = v)
    (hhit : acc = v ∨ ∃ x ∈ l, f x = v) :
    l.foldl (fun a x => a ||| f x) acc = v := by
  induction l generalizing acc with
  | nil =>
    rcases hhit with h | ⟨x, hx, _⟩
    · exact h
    · exact absurd hx (List.not_mem_nil x)
  | cons hd tl ih =>
    simp only [List.foldl_cons]
    have hhd := hall hd (List.mem_cons_self hd tl)
    have hall' : ∀ x ∈ tl, f x = 0 ∨ f x = v :=
      fun x hx => hall x (List.mem_cons_of_mem hd hx)
    have hacc' : acc ||| f hd = 0 ∨ acc ||| f hd = v := by
      rcases hacc with h | h <;> rcases hhd with h2 | h2 <;>
        simp [h, h2, Nat.or_zero, Nat.zero_or, Nat.or_self]
    rcases hhit with h | ⟨x, hx, hfx⟩
    · apply ih _ hall' hacc'
      left
      rcases hhd with h2 | h2 <;> simp [h, h2, Nat.or_zero, Nat.or_self]
    · rcases List.mem_cons.mp hx with rfl | hx'
      · apply ih _ hall' hacc'
        left
        rcases hacc with h | h <;> simp [h, hfx, Nat.zero_or, Nat.or_self]
      · exact ih _ hall' hacc' (Or.inr ⟨x, hx', hfx⟩)

/-- XOR bookkeeping: left commutativity. -/
theorem xor_left_comm (a b c : Nat) : a ^^^ (b ^^^ c) = b ^^^ (a ^^^ c) := by
  rw [← Nat.xor_assoc, Nat.xor_comm a b, Nat.xor_assoc]

/-- XOR bookkeeping: `((a ^ w) ^ d) ^ w = a ^ d`. -/
theorem xor_unwrap (a w d : Nat) :
    ((a ^^^ w) ^^^ d) ^^^ w = a ^^^ d := by
  simp [Nat.xor_assoc, Nat.xor_comm, xor_left_comm, Nat.xor_cancel_left]

/-- XOR bookkeeping: `(w ^ (a ^ d)) ^ (w ^ a) = d`. -/
theorem xor_tag_diff (w a d : Nat) :
    (w ^^^ (a ^^^ d)) ^^^ (w ^^^ a) = d := by
  simp [Nat.xor_assoc, Nat.xor_comm, xor_left_comm, Nat.xor_cancel_left]

/-- XOR bookkeeping: `(a ^ w) ^ w = a`. -/
theorem xor_cancel_r (a w : Nat) : (a ^^^ w) ^^^ w = a := by
  rw [Nat.xor_assoc, Nat.xor_self, Nat.xor_zero]

/-- Reduction of `puf_wrap_key` on the initialized, enrolled state. -/
theorem puf_wrap_key_reduce (p : Nat → Nat) (ks t : Nat) (hks : ks ≤ 32) :
    puf_wrap_key ⟨true, true⟩ p ks t = some
      { wrapped_key := fun i => if i < ks then p i ^^^ puf_wk (i % PUF_KEY_SIZE) else 0,
        tag := fun i => if i < 16 then puf_wk i ^^^ p (i % ks) else 0,
        key_type := t,
        version := 1 } := by
  unfold puf_wrap_key
  rw [puf_derive_kek]
  simp only [WRAPPED_KEY_SIZE]
  rw [if_neg (by omega : ¬ ks > 48 - 16)]
  rfl

/-- Reduction of `puf_unwrap_key` on the initialized, enrolled state. -/
theorem puf_unwrap_key_reduce (w : wrapped_key_t) (ks : Nat) (buf0 : Nat → Nat) :
    puf_unwrap_key ⟨true, true⟩ w ks buf0 =
      if (List.range 16).foldl
          (fun acc j => acc |||
            ((puf_wk j ^^^
              (if j % ks < ks then w.wrapped_key (j % ks) ^^^ puf_wk ((j % ks) % PUF_KEY_SIZE)
               else buf0 (j % ks))) ^^^ w.tag j))
          0 ≠ 0
      then (false, fun i => if i < ks then 0 else buf0 i)
      else (true, fun i =>
        if i < ks then w.wrapped_key i ^^^ puf_wk (i % PUF_KEY_SIZE) else buf0 i) := by
  unfold puf_unwrap_key
  rw [puf_derive_kek]
  rfl

/-- C5: key-wrap round trip — on the initialized, enrolled PUF state, for
    every plaintext `p` whose size fits the wrapped-key capacity and every key
    type `t`, unwrapping the wrapped key succeeds and returns exactly the
    bytes of `p`. -/
theorem claim_C5_puf_roundtrip (p : Nat → Nat) (ks t : Nat) (buf0 : Nat → Nat)
    (hks0 : 0 < ks) (hks : ks ≤ 32) (w : wrapped_key_t)
    (hw : puf_wrap_key ⟨true, true⟩ p ks t = some w) :
    (puf_unwrap_key ⟨true, true⟩ w ks buf0).1 = true ∧
    ∀ i, i < ks → (puf_unwrap_key ⟨true, true⟩ w ks buf0).2 i = p i := by
  rw [puf_wrap_key_reduce p ks t hks] at hw
  obtain rfl := (Option.some.injEq _ _).mp hw
  rw [puf_unwrap_key_reduce]
  have hdiff : (List.range 16).foldl
      (fun acc j => acc |||
        ((puf_wk j ^^^
          (if j % ks < ks then
            (if j % ks < ks then p (j % ks) ^^^ puf_wk ((j % ks) % PUF_KEY_SIZE) else 0) ^^^
              puf_wk ((j % ks) % PUF_KEY_SIZE)
           else buf0 (j % ks))) ^^^
          (if j < 16 then puf_wk j ^^^ p (j % ks) else 0)))
      0 = 0 := by
    apply foldl_lor_zero
    intro j hj
    rw [List.mem_range] at hj
    have hm : j % ks < ks := Nat.mod_lt _ hks0
    rw [if_pos hm, if_pos hm, if_pos hj, xor_cancel_r, Nat.xor_self]
  rw [hdiff, if_neg (by simp : ¬ ((0:Nat) ≠ 0))]
  refine ⟨rfl, ?_⟩
  intro i hi
  simp only [if_pos hi, xor_cancel_r]

/-- Concrete instantiation of C5: the 32-byte plaintext `i + 1` wraps and
    unwraps back to itself on the enrolled state. -/
theorem claim_C5_puf_roundtrip_witness :
    (puf_unwrap_key ⟨true, true⟩
        ((puf_wrap_key ⟨true, true⟩ (fun n => n + 1) 32 3).getD default) 32
        (fun _ => 0)).1 = true ∧
    (puf_unwrap_key ⟨true, true⟩
        ((puf_wrap_key ⟨true, true⟩ (fun n => n + 1) 32 3).getD default) 32
        (fun _ => 0)).2 31 = 32 := by
  have h := claim_C5_puf_roundtrip (fun n => n + 1) 32 3 (fun _ => 0)
    (by decide) (by decide)
    ((puf_wrap_key ⟨true, true⟩ (fun n => n + 1) 32 3).getD default) rfl
  exact ⟨h.1, h.2 31 (by decide)⟩

/-- A wrapped key with a single bit of ciphertext byte `i` flipped
    (XOR with `2 ^ b`). -/
def flip_ciphertext_byte (w : wrapped_key_t) (i b : Nat) : wrapped_key_t :=
  { w with wrapped_key := fun n =>
      if n = i then w.wrapped_key i ^^^ 2 ^ b else w.wrapped_key n }

/-- A wrapped key with a single bit of tag byte `i` flipped
    (XOR with `2 ^ b`). -/
def flip_tag_byte (w : wrapped_key_t) (i b : Nat) : wrapped_key_t :=
  { w with tag := fun n =>
      if n = i then w.tag i ^^^ 2 ^ b else w.tag n }

/-- Counterexample to C4: with a 17-byte key, flipping bit 0 of ciphertext
    byte 16 is NOT detected — the tag only covers plaintext bytes
    `i % key_size` for `i < 16`, so byte 16 is never re-checked.
    `puf_unwrap_key` returns `true` (the claim says it returns `false`) and
    hands back a corrupted plaintext byte (1, where the original plaintext
    byte was 0). -/
theorem claim_C4_counterexample :
    (puf_wrap_key ⟨true, true⟩ (fun _ => 0) 17 0).isSome = true ∧
    (puf_unwrap_key ⟨true, true⟩
        (flip_ciphertext_byte ((puf_wrap_key ⟨true, true⟩ (fun _ => 0) 17 0).getD default) 16 0)
        17 (fun _ => 0)).1 = true ∧
    (puf_unwrap_key ⟨true, true⟩
        (flip_ciphertext_byte ((puf_wrap_key ⟨true, true⟩ (fun _ => 0) 17 0).getD default) 16 0)
        17 (fun _ => 0)).2 16 = 1 := by
  refine ⟨rfl, ?_, ?_⟩ <;> decide

/-- C4 (amended): a single-bit flip of a tag byte (index < 16), or of a
    ciphertext byte whose index is below both 16 and the key size, makes
    `puf_unwrap_key` fail and zeroize the first `key_size` bytes of the
    output buffer.  (Flips of ciphertext bytes at index ≥ 16 escape the tag
    check, as the counterexample shows.) -/
theorem claim_C4_unwrap_bitflip (p : Nat → Nat) (ks t i b : Nat) (buf0 : Nat → Nat)
    (hks0 : 0 < ks) (hks : ks ≤ 32) (hi : i < 16) (hb : b < 8) (w : wrapped_key_t)
    (hw : puf_wrap_key ⟨true, true⟩ p ks t = some w) :
    (i < ks →
      puf_unwrap_key ⟨true, true⟩ (flip_ciphertext_byte w i b) ks buf0 =
        (false, fun n => if n < ks then 0 else buf0 n)) ∧
    (puf_unwrap_key ⟨true, true⟩ (flip_tag_byte w i b) ks buf0 =
      (false, fun n => if n < ks then 0 else buf0 n)) := by
  rw [puf_wrap_key_reduce p ks t hks] at hw
  obtain rfl := (Option.some.injEq _ _).mp hw
  have hpow : (2 : Nat) ^ b ≠ 0 := (pow_pos (by norm_num) b).ne'
  constructor
  · intro hik
    rw [puf_unwrap_key_reduce]
    have hdiff : (List.range 16).foldl
        (fun acc j => acc |||
          ((puf_wk j ^^^
            (if j % ks < ks then
              (flip_ciphertext_byte
                  { wrapped_key := fun n => if n < ks then p n ^^^ puf_wk (n % PUF_KEY_SIZE) else 0,
                    tag := fun n => if n < 16 then puf_wk n ^^^ p (n % ks) else 0,
                    key_type := t, version := 1 } i b).wrapped_key (j % ks) ^^^
                puf_wk ((j % ks) % PUF_KEY_SIZE)
             else buf0 (j % ks))) ^^^
            (flip_ciphertext_byte
                { wrapped_key := fun n => if n < ks then p n ^^^ puf_wk (n % PUF_KEY_SIZE) else 0,
                  tag := fun n => if n < 16 then puf_wk n ^^^ p (n % ks) else 0,
                  key_type := t, version := 1 } i b).tag j))
        0 = 2 ^ b := by
      apply foldl_lor_of_mem _ _ _ _ ?_ (Or.inl rfl) ?_
      · intro j hj
        rw [List.mem_range] at hj
        have hm : j % ks < ks := Nat.mod_lt _ hks0
        simp only [flip_ciphertext_byte, if_pos hm, if_pos hj]
        by_cases hji : j % ks = i
        · right
          simp [hji, hik, Nat.xor_assoc, Nat.xor_comm, xor_left_comm, Nat.xor_cancel_left]
        · left
          simp [hji, hm, Nat.xor_assoc, Nat.xor_comm, xor_left_comm, Nat.xor_cancel_left]
      · right
        refine ⟨i, List.mem_range.mpr hi, ?_⟩
        have hm : i % ks < ks := Nat.mod_lt _ hks0
        have hii : i % ks = i := Nat.mod_eq_of_lt hik
        simp only [flip_ciphertext_byte, if_pos hm, if_pos hi]
        simp [hii, hik, Nat.xor_assoc, Nat.xor_comm, xor_left_comm, Nat.xor_cancel_left]
    rw [hdiff, if_pos hpow]
  · rw [puf_unwrap_key_reduce]
    have hdiff : (List.range 16).foldl
        (fun acc j => acc |||
          ((puf_wk j ^^^
            (if j % ks < ks then
              (flip_tag_byte
                  { wrapped_key := fun n => if n < ks then p n ^^^ puf_wk (n % PUF_KEY_SIZE) else 0,
                    tag := fun n => if n < 16 then puf_wk n ^^^ p (n % ks) else 0,
                    key_type := t, version := 1 } i b).wrapped_key (j % ks) ^^^
                puf_wk ((j % ks) % PUF_KEY_SIZE)
             else buf0 (j % ks))) ^^^
            (flip_tag_byte
                { wrapped_key := fun n => if n < ks then p n ^^^ puf_wk (n % PUF_KEY_SIZE) else 0,
                  tag := fun n => if n < 16 then puf_wk n ^^^ p (n % ks) else 0,
                  key_type := t, version := 1 } i b).tag j))
        0 = 2 ^ b := by
      apply foldl_lor_of_mem _ _ _ _ ?_ (Or.inl rfl) ?_
      · intro j hj
        rw [List.mem_range] at hj
        have hm : j % ks < ks := Nat.mod_lt _ hks0
        simp only [flip_tag_byte, if_pos hm, if_pos hj]
        by_cases hji : j = i
        · right
          simp [hji, hi, Nat.xor_assoc, Nat.xor_comm, xor_left_comm, Nat.xor_cancel_left]
        · left
          simp [hji, hm, hj, Nat.xor_assoc, Nat.xor_comm, xor_left_comm, Nat.xor_cancel_left]
      · right
        refine ⟨i, List.mem_range.mpr hi, ?_⟩
        have hm : i % ks < ks := Nat.mod_lt _ hks0
        simp only [flip_tag_byte, if_pos hm, if_pos hi]
        simp [hi, hm, Nat.xor_assoc, Nat.xor_comm, xor_left_comm, Nat.xor_cancel_left]
    rw [hdiff, if_pos hpow]

/-- Concrete instantiation of the amended C4: with a 16-byte key, flipping
    bit 5 of ciphertext byte 3, or bit 5 of tag byte 3, makes unwrap fail
    with the 16 output bytes zeroized (the rest of the buffer keeps its prior
    contents, here 7). -/
theorem claim_C4_unwrap_bitflip_witness :
    puf_unwrap_key ⟨true, true⟩
        (flip_ciphertext_byte ((puf_wrap_key ⟨true, true⟩ (fun n => n) 16 2).getD default) 3 5)
        16 (fun _ => 7) =
      (false, fun n => if n < 16 then 0 else (fun _ => 7) n) ∧
    puf_unwrap_key ⟨true, true⟩
        (flip_tag_byte ((puf_wrap_key ⟨true, true⟩ (fun n => n) 16 2).getD default) 3 5)
        16 (fun _ => 7) =
      (false, fun n => if n < 16 then 0 else (fun _ => 7) n) := by
  have h := claim_C4_unwrap_bitflip (fun n => n) 16 2 3 5 (fun _ => 7)
    (by decide) (by decide) (by decide) (by decide)
    ((puf_wrap_key ⟨true, true⟩ (fun n => n) 16 2).getD default) rfl
  exact ⟨h.1 (by decide), h.2⟩

/-! ### Tamper response (src/unnamed/part_007, tamper_detection.c) -/

/-- Modelled from the spec: the tamper event bit constants used by
    `handle_tamper_event` come from a header (`../../include/tamper_detection.h`
    of the second tamper_detection.c) that is not in the repository snapshot;
    following §4.3 of the design they are distinct single-bit flags, with the
    same bit layout as the sibling header's `TAMPER_EVENT_*` constants. -/
def TAMPER_VOLTAGE_LOW : Nat := 0x01

def TAMPER_VOLTAGE_HIGH : Nat := 0x02

def TAMPER_TEMP_LOW : Nat := 0x04

def TAMPER_TEMP_HIGH : Nat := 0x08

def TAMPER_GLITCH_DETECTED : Nat := 0x10

/-- Tamper response action bits (src/unnamed/part_007 lines 332-334). -/
def TAMPER_ACTION_ERASE_KEYS : Nat := 0x01

def TAMPER_ACTION_RESET : Nat := 0x02

def TAMPER_ACTION_LOCK : Nat := 0x04

/-- The three externally visible tamper responses, in the order the code can
    execute them. -/
inductive TamperAction where
  | eraseKeys
  | lockDevice
  | resetDevice
deriving DecidableEq, Repr

/-- `handle_tamper_event` (src/unnamed/part_007 lines 502-536): builds the
    `action` bitmask from the event bitmask, then executes
    `erase_cryptographic_keys`, `lock_device`, `reset_device` in that fixed
    order.  The embedding returns the sequence of actions executed. -/
def handle_tamper_event (tamper_events : Nat) : List TamperAction :=
  let action : Nat := 0
  let action := if tamper_events &&& (TAMPER_VOLTAGE_LOW ||| TAMPER_VOLTAGE_HIGH) ≠ 0 then
      action ||| (TAMPER_ACTION_ERASE_KEYS ||| TAMPER_ACTION_LOCK) else action
  let action := if tamper_events &&& (TAMPER_TEMP_LOW ||| TAMPER_TEMP_HIGH) ≠ 0 then
      action ||| TAMPER_ACTION_LOCK else action
  let action := if tamper_events &&& TAMPER_GLITCH_DETECTED ≠ 0 then
      action ||| (TAMPER_ACTION_ERASE_KEYS ||| TAMPER_ACTION_RESET) else action
  (if action &&& TAMPER_ACTION_ERASE_KEYS ≠ 0 then [TamperAction.eraseKeys] else []) ++
    (if action &&& TAMPER_ACTION_LOCK ≠ 0 then [TamperAction.lockDevice] else []) ++
      (if action &&& TAMPER_ACTION_RESET ≠ 0 then [TamperAction.resetDevice] else [])

/-- C6: voltage events erase keys and lock; temperature events with no
    voltage/glitch bits lock only (no key erasure, no reset); glitch events
    erase keys and force a reset; and the executed actions always follow the
    fixed order erase-keys, then lock, then reset. -/
theorem claim_C6_handle_tamper_event (e : Nat) :
    (e &&& (TAMPER_VOLTAGE_LOW ||| TAMPER_VOLTAGE_HIGH) ≠ 0 →
      TamperAction.eraseKeys ∈ handle_tamper_event e ∧
        TamperAction.lockDevice ∈ handle_tamper_event e) ∧
    (e &&& (TAMPER_TEMP_LOW ||| TAMPER_TEMP_HIGH) ≠ 0 →
      e &&& (TAMPER_VOLTAGE_LOW ||| TAMPER_VOLTAGE_HIGH) = 0 →
      e &&& TAMPER_GLITCH_DETECTED = 0 →
      handle_tamper_event e = [TamperAction.lockDevice]) ∧
    (e &&& TAMPER_GLITCH_DETECTED ≠ 0 →
      TamperAction.eraseKeys ∈ handle_tamper_event e ∧
        TamperAction.resetDevice ∈ handle_tamper_event e) ∧
    (handle_tamper_event e).Sublist
      [TamperAction.eraseKeys, TamperAction.lockDevice, TamperAction.resetDevice] := by
  by_cases hv : e &&& (TAMPER_VOLTAGE_LOW ||| TAMPER_VOLTAGE_HIGH) = 0 <;>
    by_cases ht : e &&& (TAMPER_TEMP_LOW ||| TAMPER_TEMP_HIGH) = 0 <;>
      by_cases hg : e &&& TAMPER_GLITCH_DETECTED = 0 <;>
        simp [handle_tamper_event, hv, ht, hg] <;> decide

/-- Concrete instantiation of C6: a pure high-temperature event locks only;
    a voltage-low event erases keys and locks; a glitch event erases keys and
    resets. -/
theorem claim_C6_handle_tamper_event_witness :
    handle_tamper_event TAMPER_TEMP_HIGH = [TamperAction.lockDevice] ∧
    (TamperAction.eraseKeys ∈ handle_tamper_event TAMPER_VOLTAGE_LOW ∧
      TamperAction.lockDevice ∈ handle_tamper_event TAMPER_VOLTAGE_LOW) ∧
    (TamperAction.eraseKeys ∈ handle_tamper_event TAMPER_GLITCH_DETECTED ∧
      TamperAction.resetDevice ∈ handle_tamper_event TAMPER_GLITCH_DETECTED) := by
  refine ⟨(claim_C6_handle_tamper_event TAMPER_TEMP_HIGH).2.1 (by decide) (by decide) (by decide),
    (claim_C6_handle_tamper_event TAMPER_VOLTAGE_LOW).1 (by decide),
    (claim_C6_handle_tamper_event TAMPER_GLITCH_DETECTED).2.2.1 (by decide)⟩

/-! ### Attestation recorder (src/src/attestation/attestation.c) -/

def ATTESTATION_VERSION : Nat := 1
def MAX_MEASUREMENT_COUNT : Nat := 16
def MAX_EVENT_LOG_ENTRIES : Nat := 32
def ATTESTATION_SIGNATURE_SIZE : Nat := 64
def NONCE_SIZE : Nat := 16

/-- `boot_measurement_t` from the attestation header. -/
structure boot_measurement_t where
  component_id : Nat
  measurement : Nat → Nat
  measurement_type : Nat

/-- `event_log_entry_t` from the attestation header. -/
structure event_log_entry_t where
  event_type : Nat
  timestamp : Nat
  event_data : Nat
  description : String

/-- `attestation_report_t` from the attestation header, fields in declaration
    order.  Fixed-size arrays are modelled as functions from the index. -/
structure attestation_report_t where
  version : Nat
  nonce : Nat → Nat
  boot_count : Nat
  firmware_version : Nat
  measurement_count : Nat
  measurements : Nat → boot_measurement_t
  event_count : Nat
  events : Nat → event_log_entry_t
  tamper_events : Nat
  security_status : Nat
  uptime : Nat
  signature : Nat → Nat

/-- Module-level attestation state: `g_attestation_initialized` and
    `g_attestation_report`. -/
structure AttestationState where
  initialized : Bool
  report : attestation_report_t

/-- The report contents after `attestation_init`: everything `memset` to zero
    except `version`. -/
def init_report : attestation_report_t :=
  { version := ATTESTATION_VERSION, nonce := fun _ => 0, boot_count := 0,
    firmware_version := 0, measurement_count := 0,
    measurements := fun _ => ⟨0, fun _ => 0, 0⟩, event_count := 0,
    events := fun _ => ⟨0, 0, 0, ""⟩, tamper_events := 0, security_status := 0,
    uptime := 0, signature := fun _ => 0 }

/-- The module state right after `attestation_init` succeeded. -/
def attestation_init_state : AttestationState := ⟨true, init_report⟩

/-- `generate_attestation_report` (src/src/attestation/attestation.c lines
    98-118): fails only when the module is uninitialized or the output pointer
    is NULL (`report_provided = false`); otherwise copies the nonce in,
    increments the persistent boot counter (a `uint32_t`), zeroes the uptime,
    and copies the global report out.  It performs no check of the boot
    stages.  Returns (C result, new module state, report written to the output
    pointer). -/
def generate_attestation_report (nonce : Option (Nat → Nat)) (report_provided : Bool)
    (s : AttestationState) : Bool × AttestationState × Option attestation_report_t :=
  if ¬ s.initialized ∨ ¬ report_provided then (false, s, none)
  else
    let r := s.report
    let r := match nonce with
      | some n => { r with nonce := fun i => if i < NONCE_SIZE then n i else r.nonce i }
      | none => r
    let r := { r with boot_count := (r.boot_count + 1) % 2 ^ 32, uptime := 0 }
    (true, { s with report := r }, some r)

/-- Counterexample to C7: on the state where attestation has just been
    initialized and the boot sequencer is still at `BOOT_STATUS_INIT`
    (0x11223344) — so neither the root-of-trust stage nor the rollback stage
    has succeeded — `generate_attestation_report` nevertheless returns
    success and produces a report, for the concrete nonce 0xAB…AB.  The
    function reads nothing but the attestation module state. -/
theorem claim_C7_counterexample :
    (0x11223344 : Nat) ≠ 0x99AABBCC ∧
    (generate_attestation_report (some (fun _ => 0xAB)) true attestation_init_state).1 = true ∧
    (generate_attestation_report (some (fun _ => 0xAB)) true
        attestation_init_state).2.2.isSome = true := by
  exact ⟨by decide, rfl, rfl⟩

/-- C7 (amended): `generate_attestation_report` succeeds whenever the
    attestation module is initialized and an output report pointer is
    supplied, regardless of which boot stages have run; it contains no
    root-of-trust or rollback gate. -/
theorem claim_C7_generate_attestation_report (s : AttestationState)
    (nonce : Option (Nat → Nat)) (hinit : s.initialized = true) :
    (generate_attestation_report nonce true s).1 = true ∧
    (generate_attestation_report nonce true s).2.2.isSome = true := by
  cases nonce <;> simp [generate_attestation_report, hinit]

/-- Concrete instantiation of the amended C7. -/
theorem claim_C7_generate_attestation_report_witness :
    (generate_attestation_report none true attestation_init_state).1 = true ∧
    (generate_attestation_report none true attestation_init_state).2.2.isSome = true :=
  claim_C7_generate_attestation_report attestation_init_state none rfl

/-- Uppercase hex digit, as produced by `snprintf("%02X"/"%08X", ...)`. -/
def hexDigit (n : Nat) : Char :=
  if n < 10 then Char.ofNat (48 + n) else Char.ofNat (55 + n)

/-- Zero-padded fixed-width uppercase hex rendering of `n`
    (`%02X` is `hexPad 2`, `%08X` is `hexPad 8`). -/
def hexPad (width n : Nat) : String :=
  String.mk (((List.range width).reverse).map (fun k => hexDigit (n / 16 ^ k % 16)))

/-- One measurement entry of the JSON export (the body of the measurement
    loop in `export_report_json`), including the trailing comma handling. -/
def measurement_json (r : attestation_report_t) (i : Nat) : String :=
  let m := r.measurements i
  "    \x7b\n      \"component_id\": " ++ toString m.component_id ++ ",\n" ++
    "      \"measurement\": \"" ++
    String.join ((List.range 32).map (fun j => hexPad 2 (m.measurement j))) ++
    "\",\n      \"type\": " ++ toString m.measurement_type ++ "\n    \x7d" ++
    (if i < r.measurement_count - 1 then ",\n" else "\n")

/-- One event entry of the JSON export (the body of the event loop in
    `export_report_json`). -/
def event_json (r : attestation_report_t) (i : Nat) : String :=
  let e := r.events i
  "    \x7b\n      \"type\": " ++ toString e.event_type ++ ",\n      \"data\": " ++
    toString e.event_data ++ ",\n      \"timestamp\": " ++ toString e.timestamp ++
    ",\n      \"description\": \"" ++ e.description ++ "\"\n    \x7d" ++
    (if i < r.event_count - 1 then ",\n" else "\n")

/-- `export_report_json` (src/src/attestation/attestation.c lines 147-253):
    the structured-text export.  The embedding returns the text written,
    assuming the output buffer is large enough (the C function additionally
    returns the byte count `buffer_size - remaining`). -/
def export_report_json (report : attestation_report_t) : String :=
  "\x7b\n" ++
    "  \"version\": " ++ toString report.version ++ ",\n" ++
    "  \"boot_count\": " ++ toString report.boot_count ++ ",\n" ++
    "  \"firmware_version\": \"0x" ++ hexPad 8 report.firmware_version ++ "\",\n" ++
    "  \"security_status\": \"0x" ++ hexPad 8 report.security_status ++ "\",\n" ++
    "  \"tamper_events\": " ++ toString report.tamper_events ++ ",\n" ++
    "  \"uptime\": " ++ toString report.uptime ++ ",\n" ++
    "  \"measurements\": [\n" ++
    String.join ((List.range report.measurement_count).map (measurement_json report)) ++
    "  ],\n" ++
    "  \"events\": [\n" ++
    String.join ((List.range report.event_count).map (event_json report)) ++
    "  ],\n" ++
    "  \"signature\": \"" ++
    String.join ((List.range ATTESTATION_SIGNATURE_SIZE).map
      (fun i => hexPad 2 (report.signature i))) ++
    "\"\n\x7d\n"

/-- `export_report_cbor` (src/src/attestation/attestation.c lines 258-297):
    the compact-binary export.  It writes a map header claiming 8 entries but
    then encodes only three fields — `version` (truncated to one byte by the
    `uint8_t` assignment), `boot_count` and `firmware_version` (4 bytes each,
    big-endian) — and returns; the remaining fields are never emitted. -/
def export_report_cbor (report : attestation_report_t) : List Nat :=
  [0xA8,  -- Map with 8 entries
   0x01, 0x18, report.version % 256,
   0x02, 0x1A,
   (report.boot_count >>> 24) &&& 0xFF, (report.boot_count >>> 16) &&& 0xFF,
   (report.boot_count >>> 8) &&& 0xFF, report.boot_count &&& 0xFF,
   0x03, 0x1A,
   (report.firmware_version >>> 24) &&& 0xFF, (report.firmware_version >>> 16) &&& 0xFF,
   (report.firmware_version >>> 8) &&& 0xFF, report.firmware_version &&& 0xFF]

/-- A fixed concrete report used to compare the two exports. -/
def sample_report : attestation_report_t :=
  { init_report with boot_count := 7, firmware_version := 0x01000000 }

/-- Counterexample to C8: two reports that differ in `security_status` have
    identical compact-binary (CBOR) exports — the CBOR encoder never emits
    that field — while their structured-text (JSON) exports differ, so the
    two formats cannot decode to field-for-field identical values covering
    the full field set. -/
theorem claim_C8_counterexample :
    export_report_cbor sample_report =
      export_report_cbor { sample_report with security_status := 5 } ∧
    sample_report ≠ { sample_report with security_status := 5 } ∧
    export_report_json sample_report ≠
      export_report_json { sample_report with security_status := 5 } := by
  refine ⟨by decide, ?_, by decide⟩
  intro h
  exact absurd (congrArg attestation_report_t.security_status h) (by decide)

theorem and_255_eq_mod (n : Nat) : n &&& 255 = n % 256 := by
  have h := Nat.and_pow_two_sub_one_eq_mod n 8
  norm_num at h
  exact h

/-- C8 (amended): the CBOR export is an exact serialization of precisely the
    three fields it emits — two reports (with `uint32_t`-ranged counters)
    have equal CBOR exports iff they agree on `version mod 256`,
    `boot_count` and `firmware_version`; all other fields (security_status,
    tamper_events, uptime, measurements, events, signature, nonce) are not
    represented in it, so full-field equivalence with the JSON export fails. -/
theorem claim_C8_cbor_fields (r1 r2 : attestation_report_t)
    (hb1 : r1.boot_count < 2 ^ 32) (hb2 : r2.boot_count < 2 ^ 32)
    (hf1 : r1.firmware_version < 2 ^ 32) (hf2 : r2.firmware_version < 2 ^ 32) :
    export_report_cbor r1 = export_report_cbor r2 ↔
      (r1.version % 256 = r2.version % 256 ∧ r1.boot_count = r2.boot_count ∧
        r1.firmware_version = r2.firmware_version) := by
  simp only [export_report_cbor, Nat.shiftRight_eq_div_pow, and_255_eq_mod,
    List.cons.injEq, and_true, true_and]
  constructor
  · intro h
    obtain ⟨h1, h2, h3, h4, h5, h6, h7, h8, h9⟩ := h
    refine ⟨h1, ?_, ?_⟩ <;> omega
  · intro h
    obtain ⟨h1, h2, h3⟩ := h
    refine ⟨h1, ?_, ?_, ?_, ?_, ?_, ?_, ?_, ?_⟩ <;> omega

/-- Concrete instantiation of the amended C8: changing only
    `security_status` leaves the CBOR export unchanged. -/
theorem claim_C8_cbor_fields_witness :
    export_report_cbor sample_report =
      export_report_cbor { sample_report with security_status := 5 } :=
  (claim_C8_cbor_fields sample_report { sample_report with security_status := 5 }
    (by decide) (by decide) (by decide) (by decide)).mpr (by decide)

/-!
### Hardened-architecture boot path (src/unnamed/part_004, the second
secure_boot.c)

This implementation family uses its own SECURE_BOOT_H section of
include/anti_rollback.h: `BOOT_STATUS_SUCCESS = 0`, generic errors are
`0xFFFFFFFF`, and `boot_attestation_t` is a small fixed struct.  Its PUF
derivation (src/src/crypto/crypto_primitives.c `puf_derive_key`) reads the
hardware PUF output registers, so the derived key and the success of the
derivation are parameters of the embedding.
-/

namespace Hardened

def BOOT_STATUS_SUCCESS : Nat := 0x00000000

def BOOT_STATUS_ERROR_GENERIC : Nat := 0xFFFFFFFF

def CF_TOKEN_TAMPER_OK : Nat := 0xC3C3C3C3

def PUF_KEY_SIZE : Nat := 32

/-- `boot_attestation_t` from the SECURE_BOOT_H section of
    include/anti_rollback.h: boot stage, timestamp, eight packed measurement
    words, 64-byte signature. -/
structure boot_attestation_t where
  boot_stage : Nat
  timestamp : Nat
  measurements : Fin 8 → Nat
  signature : Nat → Nat
deriving Inhabited

/-- `generate_attestation` (src/unnamed/part_004 lines 184-217).
    Parameters beyond the C argument: `measurements_avail` is the result of
    `get_measurement` per stage (`none` = it returned false); `cf_token` is
    `g_control_flow_token`; `derive_ok`/`derived_key` are the outcome of the
    hardware-backed `puf_derive_key` into the local `puf_key[32]` buffer, and
    `puf_buf0` is that stack buffer's prior (garbage) content.  The result is
    (status, the attestation struct written through the output pointer, the
    contents of the local `puf_key` buffer when the function returns —
    `none` when the function returns before the buffer is written). -/
def generate_attestation (attestation_provided : Bool)
    (measurements_avail : Fin 8 → Option (Nat → Nat)) (cf_token : Nat)
    (derive_ok : Bool) (derived_key : Nat → Nat) (puf_buf0 : Nat → Nat) :
    Nat × Option boot_attestation_t × Option (Nat → Nat) :=
  if ¬ attestation_provided then (BOOT_STATUS_ERROR_GENERIC, none, none)
  else
    -- memset(attestation, 0, sizeof(boot_attestation_t))
    let att : boot_attestation_t := ⟨0, 0, fun _ => 0, fun _ => 0⟩
    -- measurement loop: store first 4 bytes of each available measurement
    let att := { att with measurements := fun stage =>
      match measurements_avail stage with
      | some m => ((m 0) <<< 24) ||| ((m 1) <<< 16) ||| ((m 2) <<< 8) ||| m 3
      | none => 0 }
    let att := { att with boot_stage := cf_token, timestamp := 0 }
    if ¬ derive_ok then (BOOT_STATUS_ERROR_GENERIC, some att, some puf_buf0)
    else
      -- memcpy(attestation->signature, puf_key, 32); no zeroization follows
      let att := { att with signature := fun i => if i < 32 then derived_key i else 0 }
      (BOOT_STATUS_SUCCESS, some att, some derived_key)

/-- C9 is right and the code is wrong: on the successful path
    `generate_attestation` returns with the derived PUF key still in the
    local `puf_key` buffer (no `secure_zeroize`/`memset` before return), and
    it copies the raw derived key into the report's signature field, so
    derived-key bytes remain reachable in the output.  Shown at the concrete
    derived key whose every byte is 0xAB. -/
theorem claim_C9_generate_attestation_leak :
    (generate_attestation true (fun _ => none) CF_TOKEN_TAMPER_OK true
        (fun _ => 0xAB) (fun _ => 0)).1 = BOOT_STATUS_SUCCESS ∧
    (generate_attestation true (fun _ => none) CF_TOKEN_TAMPER_OK true
        (fun _ => 0xAB) (fun _ => 0)).2.2 = some (fun _ => 0xAB) ∧
    (generate_attestation true (fun _ => none) CF_TOKEN_TAMPER_OK true
        (fun _ => 0xAB) (fun _ => 0)).2.2 ≠ some (fun _ => 0) ∧
    ((generate_attestation true (fun _ => none) CF_TOKEN_TAMPER_OK true
        (fun _ => 0xAB) (fun _ => 0)).2.1.getD default).signature 0 = 0xAB := by
  refine ⟨rfl, rfl, ?_, rfl⟩
  intro h
  have h2 := congrFun (Option.some.inj h) 0
  simp at h2

end Hardened

end SecureBoot




